import Mathlib

/-!
Verification of the RetroPortForward router abstraction and network
discovery engine against its specification.

The definitions below are a shallow embedding of the Python sources
`setup_dreampi.py`, `router_handlers.py` and `main.py`.  Network and
terminal effects are made explicit: HTTP responses, login outcomes and
terminal input streams are parameters of the embedded functions, and
the requests a handler would issue are returned as data.  String
processing (Python `strip`, `lower`, `in`, `startswith`, `split`,
regular-expression IPv4 search) is re-implemented character by
character so that every definition is executable by the kernel.
-/

set_option maxRecDepth 10000

/-- Whitespace test used by the embedded form of Python `str.strip`. -/
def chIsWs (c : Char) : Bool := c == ' ' || c == '\t' || c == '\n' || c == '\r'

/-- Character-list form of Python `str.strip`. -/
def trimChars (l : List Char) : List Char :=
  ((l.dropWhile chIsWs).reverse.dropWhile chIsWs).reverse

/-- Embedded Python `s.strip()`. -/
def strTrim (s : String) : String := ⟨trimChars s.data⟩

/-- Embedded Python `s.lower()` (ASCII lowering, as used on hostnames and
adapter lines in the source). -/
def lowerStr (s : String) : String := ⟨s.data.map Char.toLower⟩

/-- `leadsList p s` holds when `p` is an initial run of `s`. -/
def leadsList : List Char → List Char → Bool
  | [], _ => true
  | _ :: _, [] => false
  | a :: p, b :: s => a == b && leadsList p s

/-- `hasList p s` holds when `p` occurs contiguously inside `s`. -/
def hasList (p : List Char) : List Char → Bool
  | [] => leadsList p []
  | s@(_ :: rest) => leadsList p s || hasList p rest

/-- Embedded Python substring test `pat in s`. -/
def strHas (s pat : String) : Bool := hasList pat.data s.data

/-- Embedded Python `s.startswith(pat)`. -/
def strStartsWith (s pat : String) : Bool := leadsList pat.data s.data

/-- Embedded Python `s.endswith(pat)`. -/
def strEndsWith (s pat : String) : Bool := leadsList pat.data.reverse s.data.reverse

/-- Embedded Python `s[:-1]` (drop the final character). -/
def dropLastStr (s : String) : String := ⟨s.data.dropLast⟩

/-- Helper for `splitDots`: accumulates a field until the next `'.'`. -/
def splitDotsAux : List Char → List Char → List String
  | acc, [] => [⟨acc.reverse⟩]
  | acc, c :: rest =>
    if c == '.' then ⟨acc.reverse⟩ :: splitDotsAux [] rest
    else splitDotsAux (c :: acc) rest

/-- Embedded Python `s.split('.')`. -/
def splitDots (s : String) : List String := splitDotsAux [] s.data

/-- Embedded Python `sep.join(l)` for separator `"."`. -/
def joinDots : List String → String
  | [] => ""
  | [s] => s
  | s :: rest => s ++ "." ++ joinDots rest

/-- Embedded Python `"\n".join(l)`. -/
def joinLines : List String → String
  | [] => ""
  | [s] => s
  | s :: rest => s ++ "\n" ++ joinLines rest

/-- Embedded Python `'.'.join(ip.split('.')[:3])`: the first three octets
of a dotted address, used throughout the source as the subnet key. -/
def firstThree (ip : String) : String := joinDots ((splitDots ip).take 3)

/-- Embedded Python `int(s)` restricted to the non-negative decimal forms
the interactive selection loop can accept (any other input raises
`ValueError` in the source, which the loop treats as an invalid entry). -/
def parseNatStr (s : String) : Option Nat :=
  if s.data ≠ [] && s.data.all Char.isDigit then
    some (s.data.foldl (fun n c => n * 10 + (c.toNat - 48)) 0)
  else none

/-- Length of the leading digit run of a character list. -/
def digitRun : List Char → Nat
  | [] => 0
  | c :: rest => if c.isDigit then digitRun rest + 1 else 0

/-- Match one group `\d{1,3}\.` of the source's IPv4 regular expression at
the head of the list, returning the octet and the remainder after the dot. -/
def octDot (s : List Char) : Option (List Char × List Char) :=
  let d := digitRun s
  if 1 ≤ d && d ≤ 3 then
    match s.drop d with
    | '.' :: rest => some (s.take d, rest)
    | _ => none
  else none

/-- Match the full pattern `\d{1,3}\.\d{1,3}\.\d{1,3}\.\d{1,3}` at the head
of the list (final group greedy up to three digits, as in the regex). -/
def ipAt (s : List Char) : Option (List Char) := do
  let (o1, r1) ← octDot s
  let (o2, r2) ← octDot r1
  let (o3, r3) ← octDot r2
  let d := digitRun r3
  if 1 ≤ d then
    some (o1 ++ '.' :: o2 ++ '.' :: o3 ++ '.' :: r3.take (min d 3))
  else none

/-- Leftmost match of the IPv4 pattern, as `re.search` finds it. -/
def scanIPv4 : List Char → Option (List Char)
  | [] => none
  | s@(_ :: rest) =>
    match ipAt s with
    | some ip => some ip
    | none => scanIPv4 rest

/-- Embedded `re.search(r'(\d{1,3}\.\d{1,3}\.\d{1,3}\.\d{1,3})', line)`
from `setup_dreampi.get_router_subnet_ip`. -/
def findIPv4 (s : String) : Option String := (scanIPv4 s.data).map (fun l => ⟨l⟩)

/-- The virtual-adapter denylist `vpn_patterns` of
`setup_dreampi.get_router_subnet_ip`. -/
def vpnPatterns : List String := ["vpn", "tap-windows", "tunnel", "tun", "tap"]

/-- Embedded `any(pattern in line.lower() for pattern in vpn_patterns)`. -/
def vpnHit (line : String) : Bool := vpnPatterns.any (fun p => strHas (lowerStr line) p)

/-- Python truthiness of the loop variable `current_adapter` (`None` and the
empty string are falsy). -/
def curTruthy : Option String → Bool
  | none => false
  | some s => !(s == "")

/-- The line loop of `setup_dreampi.get_router_subnet_ip` (Windows branch,
the one that tracks `current_adapter` by name): skip denylisted adapter
blocks, record adapter headers, and return the first IPv4 address under a
live adapter whose first three octets equal the router's. -/
def subnetLoop (sub : String) : Option String → List String → Option String
  | _, [] => none
  | cur, l :: ls =>
    let line := strTrim l
    if vpnHit line then subnetLoop sub none ls
    else if strEndsWith line ":" then
      subnetLoop sub (some (strTrim (dropLastStr line))) ls
    else if curTruthy cur && strHas line "IPv4 Address" then
      match findIPv4 line with
      | some ip => if firstThree ip == sub then some ip else subnetLoop sub cur ls
      | none => subnetLoop sub cur ls
    else subnetLoop sub cur ls

/-- Embedded `setup_dreampi.get_router_subnet_ip`, with the gateway address
and the `ipconfig /all` listing supplied as inputs (in the source they are
read from the OS). -/
def getRouterSubnetIp (routerIp : String) (lines : List String) : Option String :=
  subnetLoop (firstThree routerIp) none lines

/-- A local interface as the specification describes it: a name/description
and an IPv4 address. -/
structure Iface where
  name : String
  ip : String
deriving DecidableEq

/-- The constant text an `ipconfig /all` IPv4 line carries before the
address. -/
def ipv4Pre : String := "   IPv4 Address. . . . . . . . . . . : "

/-- The rendered IPv4 line of an interface. -/
def ipv4Line (i : Iface) : String := ipv4Pre ++ i.ip

/-- Render an interface listing the way `ipconfig /all` reports it: a header
line ending in a colon followed by an IPv4 line per interface. -/
def renderIfaces : List Iface → List String
  | [] => []
  | i :: rest => (i.name ++ ":") :: ipv4Line i :: renderIfaces rest

/-- An interface whose name or description matches the virtual-adapter
denylist. -/
def denylistedName (i : Iface) : Bool :=
  vpnPatterns.any (fun p => strHas (lowerStr i.name) p)

/-- Modelled from the spec: the SubnetMapper contract — skip denylisted
interfaces and return the first remaining interface address whose first
three octets equal the given subnet key, `none` when no interface matches. -/
def specFind (sub : String) (ifaces : List Iface) : Option String :=
  ((ifaces.filter (fun i => !denylistedName i)).find?
    (fun i => firstThree i.ip == sub)).map (fun i => i.ip)

/-- Modelled from the spec: SubnetMapper on a gateway address. -/
def subnetMapperSpec (gw : String) (ifaces : List Iface) : Option String :=
  specFind (firstThree gw) ifaces

/-- Well-formedness of one rendered interface: its header line is denylisted
exactly when its name is, the header keeps its trailing colon and a
non-empty stored name after trimming, and its IPv4 line is not itself a
header, not denylisted, carries the `IPv4 Address` tag and yields exactly
the interface's address under the IPv4 regular-expression search. -/
def sideCondB (i : Iface) : Bool :=
  (vpnHit (strTrim (i.name ++ ":")) == denylistedName i) &&
  strEndsWith (strTrim (i.name ++ ":")) ":" &&
  !(strTrim (dropLastStr (strTrim (i.name ++ ":"))) == "") &&
  !vpnHit (strTrim (ipv4Line i)) &&
  !strEndsWith (strTrim (ipv4Line i)) ":" &&
  strHas (strTrim (ipv4Line i)) "IPv4 Address" &&
  (findIPv4 (strTrim (ipv4Line i)) == some i.ip)

/-- A port-forwarding rule, as the dictionaries
`{"protocol": ..., "external": ..., "internal": ...}` of the source. -/
structure PortRule where
  protocol : String
  extPort : Nat
  intPort : Nat
deriving DecidableEq

/-- The Saturn rule set of `RouterManager.get_port_rules` /
`Api.start_port_forward`. -/
def saturnPortRules : List PortRule :=
  [⟨"TCP", 65432, 65432⟩, ⟨"UDP", 20001, 20001⟩, ⟨"UDP", 20002, 20002⟩]

/-- The vendor keys of the static map in `RouterHandlers.get_handler`. -/
def handlerRegistry : List String :=
  ["ASUS", "TP-Link", "Netgear", "Linksys", "D-Link", "Cisco", "Belkin", "Buffalo",
   "Zyxel", "Huawei", "Ubiquiti", "MikroTik", "NETIS", "Tenda", "EnGenius", "Actiontec",
   "AirTies", "Arris", "Motorola", "Sagemcom", "Thomson", "Technicolor", "Zoom",
   "Billion", "SmartRG", "Edimax", "Comtrend", "Pace", "Xiaomi", "Fios-G1100", "OpenWrt"]

/-- Embedded `RouterHandlers.get_handler`: a known vendor tag resolves to its
own handler, any other tag falls back to `GenericHandler`. -/
def getHandler (t : String) : String :=
  if handlerRegistry.contains t then t else "Generic"

/-- Embedded state of `setup_dreampi.RouterManager`. -/
structure RouterManager where
  routerIp : Option String
  routerType : Option String
  handler : Option String
deriving DecidableEq

/-- Embedded `RouterManager.__init__`: the handler is created only when a
truthy `router_type` argument is passed to the constructor. -/
def mkRouterManager (rt : Option String) : RouterManager :=
  { routerIp := none, routerType := rt,
    handler :=
      match rt with
      | none => none
      | some t => if t == "" then none else some (getHandler t) }

/-- The GUI entry point's plain attribute assignment
`self.router_manager.router_type = router_type` (`main.Api.start_port_forward`):
it updates the field and nothing else. -/
def setRouterTypeAttr (rm : RouterManager) (rt : String) : RouterManager :=
  { rm with routerType := some rt }

/-- Outcome of one `handler.login` call: it may return `True`, return a
falsy value, or raise (the loop in the source catches the exception). -/
inductive AttemptOutcome where
  | success
  | failure
  | raised
deriving DecidableEq

/-- The retry loop of `RouterManager.login_to_router`: at most `fuel`
attempts, the `k`-th attempt's outcome given by `f k`; returns the boolean
result together with the number of attempts made. -/
def loginLoop (f : Nat → AttemptOutcome) : Nat → Nat → Bool × Nat
  | 0, used => (false, used)
  | n + 1, used =>
    match f used with
    | AttemptOutcome.success => (true, used + 1)
    | _ => loginLoop f n (used + 1)

/-- Embedded `RouterManager.login_to_router`: no handler means an immediate
`False` with zero attempts, otherwise up to `max_attempts = 3` tries. -/
def managerLogin (rm : RouterManager) (f : Nat → AttemptOutcome) : Bool × Nat :=
  match rm.handler with
  | none => (false, 0)
  | some _ => loginLoop f 3 0

/-- Embedded `RouterManager.setup_port_forward`: no handler means an
immediate `False` with zero handler calls; with a handler the single
`handler.setup_port_forward` call is made, its result given by the
environment `applyEnv`. -/
def managerSetup (rm : RouterManager) (applyEnv : String → String → List PortRule → Bool)
    (target : String) (rules : List PortRule) : Bool × Nat :=
  match rm.handler with
  | none => (false, 0)
  | some h => (applyEnv h target rules, 1)

/-- An HTTP response as the auth strategies observe it: a status code, or a
raised transport exception. -/
inductive NetResp where
  | status (code : Nat)
  | exn
deriving DecidableEq

/-- Evaluation of any `logging.info` / `logging.debug` / `logging.error`
call inside `router_handlers.py`: the module's only imports are `re`,
`json`, `base64`, `hashlib`, `xml.etree`, `urllib.parse.quote` and
`requests.auth.HTTPBasicAuth` — the name `logging` is unbound there, so
every such call raises `NameError` instead of logging. -/
def loggingCall : Except String Unit :=
  Except.error "NameError: name 'logging' is not defined"

/-- Embedded `GenericHandler._try_basic_auth`: a root-page status of 400 or
above falls through to the clean `return False`; a status below 400
executes `logging.info` (which raises `NameError`), and the `except`
clause then runs `logging.debug`, which raises again and escapes the
method; a transport exception likewise reaches the `except` clause whose
`logging.debug` raises out of the method. -/
def tryBasicAuth (resp : NetResp) : Except String Bool :=
  match resp with
  | NetResp.status c =>
    if c < 400 then do
      _ ← loggingCall
      pure true
    else pure false
  | NetResp.exn => do
    _ ← loggingCall
    pure false

/-- Embedded `GenericHandler._try_digest_auth`: same raising shape as the
basic probe — only the status-400-or-above path returns cleanly. -/
def tryDigestAuth (resp : NetResp) : Except String Bool :=
  match resp with
  | NetResp.status c =>
    if c < 400 then do
      _ ← loggingCall
      pure true
    else pure false
  | NetResp.exn => do
    _ ← loggingCall
    pure false

/-- The `login_paths` cascade of `GenericHandler._try_form_auth`. -/
def loginPaths : List String :=
  ["/login.cgi", "/login.asp", "/login.htm", "/login", "/cgi-bin/login"]

/-- The `form_data_variants` cascade of `GenericHandler._try_form_auth`. -/
def formVariants (u p : String) : List (List (String × String)) :=
  [[("username", u), ("password", p)],
   [("user", u), ("pass", p)],
   [("login", u), ("password", p)],
   [("admin_name", u), ("admin_pwd", p)]]

/-- One path of `_try_form_auth`: each form-data variant is posted in
order; a status of 400 or above moves to the next variant; a status below
400 executes `logging.info`, which raises `NameError` and — after the
per-path and outer `except` clauses raise again from their own
`logging.debug` calls — escapes the method; a transport exception reaches
the same raising `except` clauses. -/
def tryFormPath (resp : List (String × String) → NetResp) :
    List (List (String × String)) → Except String Bool
  | [] => pure false
  | v :: rest =>
    match resp v with
    | NetResp.exn => do
      _ ← loggingCall
      pure false
    | NetResp.status c =>
      if c < 400 then do
        _ ← loggingCall
        pure true
      else tryFormPath resp rest

/-- The path loop of `_try_form_auth`: a clean `False` from one path moves
on to the next; an escaped `NameError` aborts the whole method, remaining
paths included. -/
def tryFormPaths (resp : String → List (String × String) → NetResp) (u p : String) :
    List String → Except String Bool
  | [] => pure false
  | path :: rest => do
    let b ← tryFormPath (resp path) (formVariants u p)
    if b then pure true else tryFormPaths resp u p rest

/-- Embedded `GenericHandler._try_form_auth`: the cascade of common
login-path and form-field-name combinations, with the raising behavior of
its `logging` calls. -/
def tryFormAuth (resp : String → List (String × String) → NetResp) (u p : String) :
    Except String Bool :=
  tryFormPaths resp u p loginPaths

/-- The network environment a `GenericHandler.login` call runs against: the
root-page response under basic auth, the response to each form post, and
the root-page response under digest auth. -/
structure GenericAuthEnv where
  basicResp : NetResp
  formResp : String → List (String × String) → NetResp
  digestResp : NetResp

/-- Embedded `GenericHandler.login`: the strategies run in the order basic,
form, digest; a `NameError` raised inside a strategy reaches `login`'s own
`except` clause, whose `logging.error` call raises `NameError` again, so
the exception escapes `login` itself.  Consequently `login` can only ever
return `False`, and only when every probe cleanly reports status 400 or
above. -/
def genericLogin (env : GenericAuthEnv) (u p : String) : Except String Bool := do
  let b ← tryBasicAuth env.basicResp
  if b then pure true
  else do
    let f ← tryFormAuth env.formResp u p
    if f then pure true
    else do
      let d ← tryDigestAuth env.digestResp
      if d then pure true else pure false

/-- One instruction line built by `GenericHandler.setup_port_forward`. -/
def genericInstructionLine (clientIp : String) (r : PortRule) : String :=
  "- Forward " ++ r.protocol ++ " port " ++ toString r.extPort ++ " to " ++
    clientIp ++ ":" ++ toString r.intPort

/-- The value `GenericHandler.setup_port_forward` is written to return:
`requests` records the HTTP calls the method makes to the router (the body
contains none), `instructions` holds the built instruction lines and
`applied` the `return False` ("not applied") outcome. -/
structure GenericApplyResult where
  applied : Bool
  instructions : List String
  requests : List String
deriving DecidableEq

/-- Embedded `GenericHandler.setup_port_forward`: the instruction list (one
line per rule) is built and no router request is made, but the method then
runs an unconditional `logging.info` call, which raises `NameError`
(`logging` is never imported in `router_handlers.py`), so execution never
reaches `return False`; the value the source was written to return is the
`Except.ok` payload. -/
def genericSetupPortForward (clientIp : String) (rules : List PortRule) :
    Except String GenericApplyResult := do
  let instructions := rules.map (genericInstructionLine clientIp)
  _ ← loggingCall
  pure { applied := false, instructions := instructions, requests := [] }

/-- Embedded `RouterManager.setup_port_forward` specialised to the Generic
handler: the `handler.setup_port_forward` call sits in a `try` block whose
`except` clause (in `setup_dreampi.py`, where logging works) converts the
raised `NameError` into a plain `False` return. -/
def managerSetupGeneric (target : String) (rules : List PortRule) : Bool :=
  match genericSetupPortForward target rules with
  | Except.ok r => r.applied
  | Except.error _ => false

/-- The record `main.Api.start_port_forward` hands back to the UI layer. -/
structure ApiResult where
  success : Bool
  error : Option String
  ip : Option String
  ports : Option (List String)
deriving DecidableEq

/-- The per-rule line of the manual-configuration message in
`main.Api.start_port_forward`. -/
def manualPortLine (targetIp : String) (r : PortRule) : String :=
  "- " ++ r.protocol ++ " Port " ++ toString r.extPort ++ " -> " ++
    targetIp ++ ":" ++ toString r.intPort

/-- Embedded rule-application tail of `main.Api.start_port_forward` (the
code following target resolution): on a successful
`router_manager.setup_port_forward` return the success record, on failure
return the manual-instruction error for the `"Generic"` vendor tag and the
plain failure error otherwise. -/
def applyStepResult (routerType : String) (targetIp : String)
    (rules : List PortRule) (setupOk : Bool) : ApiResult :=
  if setupOk then
    { success := true, error := none, ip := some targetIp,
      ports := some (rules.map (fun r => r.protocol ++ " " ++ toString r.extPort)) }
  else if routerType == "Generic" then
    { success := false,
      error := some ("Please configure these ports manually:\n" ++
        joinLines (rules.map (manualPortLine targetIp))),
      ip := none, ports := none }
  else
    { success := false, error := some "Failed to configure port forwarding",
      ip := none, ports := none }

/-- The logical content of one entry of the single bulk request
`ASUSHandler.setup_port_forward` posts (`vts_desc_x_i`, `vts_port_x_i`,
`vts_ipaddr_x_i`, `vts_proto_x_i`). -/
structure AsusEntry where
  desc : String
  port : Nat
  ip : String
  proto : String
deriving DecidableEq

/-- The entry list `ASUSHandler.setup_port_forward` derives from a rule set:
names and ports come from the rule content only. -/
def asusEntries (clientIp : String) (rules : List PortRule) : List AsusEntry :=
  rules.map (fun r =>
    { desc := "DreamPi_" ++ r.protocol ++ "_" ++ toString r.extPort,
      port := r.extPort, ip := clientIp, proto := r.protocol })

/-- Modelled from the spec: the mock router's reaction to the ASUS bulk
apply (`action_mode: "apply"` posting the complete indexed virtual-server
list) — the forwarding table is replaced by the posted entries. -/
def asusApplyMock (_t : List AsusEntry) (clientIp : String)
    (rules : List PortRule) : List AsusEntry :=
  asusEntries clientIp rules

/-- The logical content of one `port_forward/add` request of the modern
(token) path of `TPLinkHandler.setup_port_forward`. -/
structure TplinkEntry where
  proto : String
  extPort : Nat
  intPort : Nat
  ip : String
  desc : String
deriving DecidableEq

/-- The per-rule requests `TPLinkHandler.setup_port_forward` posts, derived
from rule content only. -/
def tplinkEntries (clientIp : String) (rules : List PortRule) : List TplinkEntry :=
  rules.map (fun r =>
    { proto := r.protocol, extPort := r.extPort, intPort := r.intPort,
      ip := clientIp,
      desc := "DreamPi_" ++ r.protocol ++ "_" ++ toString r.extPort })

/-- Modelled from the spec: the mock router's reaction to one
`port_forward/add` request — a rule with the same name and ports that is
already present is not duplicated, a new rule is appended. -/
def addIfAbsent (e : TplinkEntry) (t : List TplinkEntry) : List TplinkEntry :=
  if e ∈ t then t else t ++ [e]

/-- Modelled from the spec: the mock router table after
`TPLinkHandler.setup_port_forward` posts its per-rule add requests. -/
def tplinkApplyMock (t : List TplinkEntry) (clientIp : String)
    (rules : List PortRule) : List TplinkEntry :=
  (tplinkEntries clientIp rules).foldl (fun acc e => addIfAbsent e acc) t

/-- The `pi_mac_prefixes` list of `setup_dreampi.find_dreampi`. -/
def piMacPrefixes : List String :=
  ["B8:27:EB", "DC:A6:32", "E4:5F:01", "D8:3A:DD", "B8:81:98"]

/-- The `dreampi_hostname_patterns` list of `setup_dreampi.find_dreampi`. -/
def dreampiHostnamePatterns : List String :=
  ["dreampi", "dream-pi", "dream_pi", "rpi", "raspberrypi", "raspberry-pi"]

/-- The `dreampi_ports` list probed by `setup_dreampi.find_dreampi`. -/
def dreampiPorts : List Nat := [65432, 20001, 20002]

/-- One host that answered the ARP sweep, in discovery order: its address,
hardware address, reverse-DNS name (empty when the lookup failed, as in the
source's `except` clause) and the set of TCP ports that accept a connect. -/
structure ArpReply where
  ip : String
  mac : String
  hostname : String
  openPorts : List Nat
deriving DecidableEq

/-- Embedded `mac_match`: `any(mac.startswith(prefix) ...)`. -/
def macMatch (r : ArpReply) : Bool :=
  piMacPrefixes.any (fun p => strStartsWith r.mac p)

/-- Embedded `hostname_match`: the lowered hostname contains one of the
patterns. -/
def hostnameMatch (r : ArpReply) : Bool :=
  dreampiHostnamePatterns.any (fun pat => strHas (lowerStr r.hostname) pat)

/-- Embedded `port_match`: some known DreamPi port accepts a connection. -/
def portMatch (r : ArpReply) : Bool :=
  dreampiPorts.any (fun p => r.openPorts.contains p)

/-- Embedded `if mac_match or hostname_match or port_match` of
`find_dreampi`: the candidate test. -/
def qualifies (r : ArpReply) : Bool :=
  macMatch r || hostnameMatch r || portMatch r

/-- Embedded `discovered_ips`: the qualifying addresses in discovery
order. -/
def discoveredIps (replies : List ArpReply) : List String :=
  (replies.filter qualifies).map (fun r => r.ip)

/-- Outcome of `find_dreampi`: an address, `None`, or — when the
interactive selection loop runs out of terminal input — a session that is
still blocked reading from the terminal (the source loops on `input()`
forever in that case). -/
inductive FindOutcome where
  | found (ip : String)
  | noneFound
  | blockedOnInput
deriving DecidableEq

/-- The interactive selection loop of `find_dreampi` over the candidate
list, consuming one terminal line per iteration: `q` quits, a number in
range selects that candidate (1-based), anything else re-prompts. -/
def selectDevice (cands : List String) : List String → FindOutcome
  | [] => FindOutcome.blockedOnInput
  | c :: rest =>
    let t := strTrim c
    if lowerStr t == "q" then FindOutcome.noneFound
    else
      match parseNatStr t with
      | some n =>
        if 1 ≤ n && n ≤ cands.length then FindOutcome.found (cands.getD (n - 1) "")
        else selectDevice cands rest
      | none => selectDevice cands rest

/-- The manual-address fallback at the end of `find_dreampi`: a stripped
non-empty input is accepted when `manual_input.startswith(network_prefix)`
holds, otherwise (and on empty input) the search fails. -/
def manualFallback (manual : Option String) (netPfx : String) : FindOutcome :=
  match manual with
  | none => FindOutcome.noneFound
  | some s =>
    let t := strTrim s
    if t == "" then FindOutcome.noneFound
    else if strStartsWith t netPfx then FindOutcome.found t
    else FindOutcome.noneFound

/-- Embedded `setup_dreampi.find_dreampi`, with the ARP sweep's responses,
the terminal input stream of the selection loop, the manual-address answer
and the local subnet address supplied as inputs: exactly one qualifying
host is returned at once; several enter the interactive selection loop; none
falls through to the manual-address prompt. -/
def findDreampi (replies : List ArpReply) (choices : List String)
    (manual : Option String) (localIp : String) : FindOutcome :=
  let netPfx := firstThree localIp
  match discoveredIps replies with
  | [] => manualFallback manual netPfx
  | [x] => FindOutcome.found x
  | cands => selectDevice cands choices

/-- C2 evaluation at the failing input: every call of
`GenericHandler.setup_port_forward` raises `NameError` — the unconditional
`logging.info` call runs in a module that never imports `logging` — so the
method never returns the claimed "not applied" result with its instruction
list: not for the Saturn rule set, and not for any client IP or rule set
at all. -/
theorem c2_failing_input_raises (clientIp : String) (rules : List PortRule) :
    genericSetupPortForward clientIp rules
      = Except.error "NameError: name 'logging' is not defined"
  ∧ genericSetupPortForward "192.168.1.98" saturnPortRules
      = Except.error "NameError: name 'logging' is not defined" :=
  ⟨rfl, rfl⟩

/-- C1 counterexample: in the Saturn/Generic scenario the session result
built by `Api.start_port_forward` after the failed apply (the handler's
raised `NameError` is caught by `RouterManager.setup_port_forward` and
converted to `False`) has `success = False` — it is not a success
outcome. -/
theorem c1_counterexample_not_success :
    (applyStepResult "Generic" "192.168.1.98" saturnPortRules
      (managerSetupGeneric "192.168.1.98" saturnPortRules)).success
      = false := by decide

/-- C1 amended: for the `"Generic"` vendor tag a failed apply yields a
failure outcome (`success = False`) whose error text asks for manual
configuration and lists exactly the three Saturn forwarding lines mapped to
the resolved target IP. -/
theorem c1_amended_generic_manual_failure (ip : String) :
    (applyStepResult "Generic" ip saturnPortRules
      (managerSetupGeneric ip saturnPortRules)).success = false
  ∧ (applyStepResult "Generic" ip saturnPortRules
      (managerSetupGeneric ip saturnPortRules)).error =
      some ("Please configure these ports manually:\n- TCP Port 65432 -> " ++ ip ++
        ":65432\n- UDP Port 20001 -> " ++ ip ++ ":20001\n- UDP Port 20002 -> " ++
        ip ++ ":20002") := by
  refine ⟨rfl, ?_⟩
  have h1 : (applyStepResult "Generic" ip saturnPortRules
      (managerSetupGeneric ip saturnPortRules)).error =
      some ("Please configure these ports manually:\n" ++
        joinLines (saturnPortRules.map (manualPortLine ip))) := rfl
  rw [h1]
  congr 1
  apply String.ext
  have e1 : toString (65432 : Nat) = "65432" := rfl
  have e2 : toString (20001 : Nat) = "20001" := rfl
  have e3 : toString (20002 : Nat) = "20002" := rfl
  simp [saturnPortRules, manualPortLine, joinLines, e1, e2, e3, String.data_append]

/-- C10: a `RouterManager` constructed without a `router_type` argument has
no handler; assigning `router_type` as an attribute afterwards (the GUI
entry point's path) still creates no handler, so login and port-forward
setup return `False` immediately with zero handler calls, for every
credential environment and rule set — that session path can never
authenticate. -/
theorem c10_gui_session_never_authenticates :
    (mkRouterManager none).handler = none
  ∧ ∀ rt : String,
      (setRouterTypeAttr (mkRouterManager none) rt).handler = none
    ∧ (∀ f, managerLogin (setRouterTypeAttr (mkRouterManager none) rt) f = (false, 0))
    ∧ (∀ applyEnv target rules,
        managerSetup (setRouterTypeAttr (mkRouterManager none) rt) applyEnv target rules
          = (false, 0)) :=
  ⟨rfl, fun _ => ⟨rfl, fun _ => rfl, fun _ _ _ => rfl⟩⟩

/-- C5 evaluation at the failing inputs: a basic-auth probe answered 200
(a succeeding strategy) makes `GenericHandler.login` raise `NameError`
instead of returning `True`; a transport exception during the basic probe
raises out of `login` before the form and digest strategies ever run, even
though the digest probe would answer 200 (strategy failure is fatal and
the exception escapes to the caller); and the only clean return is
`False`, reached when every probe reports status 400 or above. -/
theorem c5_failing_input_raises :
    genericLogin ⟨NetResp.status 200, fun _ _ => NetResp.status 403, NetResp.status 401⟩
      "admin" "password1" = Except.error "NameError: name 'logging' is not defined"
  ∧ genericLogin ⟨NetResp.exn, fun _ _ => NetResp.status 403, NetResp.status 200⟩
      "admin" "password1" = Except.error "NameError: name 'logging' is not defined"
  ∧ genericLogin ⟨NetResp.status 401, fun _ _ => NetResp.status 403, NetResp.status 401⟩
      "admin" "password1" = Except.ok false :=
  ⟨rfl, rfl, rfl⟩

/-- C6: a responding host qualifies as a discovery candidate when any of
the three signals matches (logical OR: each single signal suffices, and a
qualifying host exhibits at least one signal); and when exactly one host
qualifies, discovery returns that host's address, independent of the
terminal input stream and of any manual address. -/
theorem c6_discovery_or_single (r : ArpReply) :
    (macMatch r = true → qualifies r = true)
  ∧ (hostnameMatch r = true → qualifies r = true)
  ∧ (portMatch r = true → qualifies r = true)
  ∧ (qualifies r = true →
      macMatch r = true ∨ hostnameMatch r = true ∨ portMatch r = true)
  ∧ (∀ (replies : List ArpReply) (x : String) (choices : List String)
        (manual : Option String) (localIp : String),
      discoveredIps replies = [x] →
        findDreampi replies choices manual localIp = FindOutcome.found x) := by
  refine ⟨?_, ?_, ?_, ?_, ?_⟩
  · intro h; simp [qualifies, h]
  · intro h; simp [qualifies, h]
  · intro h; simp [qualifies, h]
  · intro h; simpa [qualifies, Bool.or_eq_true, or_assoc] using h
  · intro replies x choices manual localIp h
    simp [findDreampi, h]

/-- C6 witness: a synthetic subnet where exactly one responding host has a
Raspberry-Pi MAC prefix and no host exhibits any other signal — discovery
returns that host's address. -/
theorem c6_witness :
    findDreampi
      [⟨"192.168.1.77", "B8:27:EB:12:34:56", "host77", []⟩,
       ⟨"192.168.1.80", "AA:BB:CC:00:11:22", "printer", []⟩]
      [] none "192.168.1.10" = FindOutcome.found "192.168.1.77" :=
  (c6_discovery_or_single ⟨"192.168.1.77", "B8:27:EB:12:34:56", "host77", []⟩).2.2.2.2
    _ _ [] none _ (by decide)

/-- C8: evaluation of the manual-address path at the failing input — with
the local subnet `192.168.1`, the address `192.168.10.77`, whose first
three octets differ from the local subnet prefix, is nevertheless accepted,
because the source validates with a plain string `startswith` and no octet
boundary. -/
theorem c8_failing_input_eval :
    findDreampi [] [] (some "192.168.10.77") "192.168.1.50" =
      FindOutcome.found "192.168.10.77"
  ∧ ¬ (firstThree "192.168.10.77" = firstThree "192.168.1.50") := by
  constructor
  · decide
  · decide

theorem mem_addIfAbsent {a e : TplinkEntry} {t : List TplinkEntry} (h : a ∈ t) :
    a ∈ addIfAbsent e t := by
  unfold addIfAbsent
  split
  · exact h
  · exact List.mem_append_left _ h

theorem self_mem_addIfAbsent (e : TplinkEntry) (t : List TplinkEntry) :
    e ∈ addIfAbsent e t := by
  unfold addIfAbsent
  split
  · assumption
  · exact List.mem_append_right _ (List.mem_singleton.mpr rfl)

theorem mem_foldlAdd {a : TplinkEntry} (es : List TplinkEntry) {t : List TplinkEntry}
    (h : a ∈ t) : a ∈ es.foldl (fun acc e => addIfAbsent e acc) t := by
  induction es generalizing t with
  | nil => simpa using h
  | cons e es ih => exact ih (mem_addIfAbsent h)

theorem mem_of_elem_foldlAdd {a : TplinkEntry} {es : List TplinkEntry}
    (t : List TplinkEntry) (h : a ∈ es) :
    a ∈ es.foldl (fun acc e => addIfAbsent e acc) t := by
  induction es generalizing t with
  | nil => cases h
  | cons e es ih =>
    rcases List.mem_cons.mp h with rfl | h
    · exact mem_foldlAdd es (self_mem_addIfAbsent a t)
    · exact ih _ h

theorem foldlAdd_noop (es : List TplinkEntry) (t : List TplinkEntry)
    (h : ∀ e ∈ es, e ∈ t) : es.foldl (fun acc e => addIfAbsent e acc) t = t := by
  induction es with
  | nil => rfl
  | cons e es ih =>
    have he : e ∈ t := h e (by simp)
    have hstep : addIfAbsent e t = t := by unfold addIfAbsent; simp [he]
    simp only [List.foldl_cons, hstep]
    exact ih (fun x hx => h x (by simp [hx]))

/-- C3: applying the same rule set twice against the same target leaves the
mock router's forwarding table exactly as one application leaves it, for
both the ASUS bulk-replace transport and the TP-Link per-rule add
transport — the second application creates no duplicate entries. -/
theorem c3_reapply_idempotent (ta : List AsusEntry) (tt : List TplinkEntry)
    (clientIp : String) (rules : List PortRule) :
    asusApplyMock (asusApplyMock ta clientIp rules) clientIp rules
      = asusApplyMock ta clientIp rules
  ∧ tplinkApplyMock (tplinkApplyMock tt clientIp rules) clientIp rules
      = tplinkApplyMock tt clientIp rules := by
  refine ⟨rfl, ?_⟩
  unfold tplinkApplyMock
  exact foldlAdd_noop _ _ (fun e he => mem_of_elem_foldlAdd tt he)

theorem loginLoop_step (f : Nat → AttemptOutcome) (n used : Nat)
    (h : f used ≠ AttemptOutcome.success) :
    loginLoop f (n + 1) used = loginLoop f n (used + 1) := by
  rcases hc : f used with _ | _ | _
  · exact absurd hc h
  · simp [loginLoop, hc]
  · simp [loginLoop, hc]

theorem loginLoop_stepS (f : Nat → AttemptOutcome) (n used : Nat)
    (h : f used = AttemptOutcome.success) :
    loginLoop f (n + 1) used = (true, used + 1) := by
  simp [loginLoop, h]

theorem loginLoop_congr (n : Nat) :
    ∀ (used : Nat) (f g : Nat → AttemptOutcome),
      (∀ k, k < n → f (used + k) = g (used + k)) →
      loginLoop f n used = loginLoop g n used := by
  induction n with
  | zero => intro used f g _; rfl
  | succ m ih =>
    intro used f g h
    have h0 : f used = g used := by simpa using h 0 (Nat.succ_pos m)
    rcases hc : f used with _ | _ | _
    · rw [loginLoop_stepS f m used hc, loginLoop_stepS g m used (h0 ▸ hc)]
    · rw [loginLoop_step f m used (by simp [hc]),
        loginLoop_step g m used (by rw [← h0]; simp [hc])]
      refine ih (used + 1) f g (fun k hk => ?_)
      have hx := h (k + 1) (by omega)
      have hrw : used + (k + 1) = used + 1 + k := by omega
      rwa [hrw] at hx
    · rw [loginLoop_step f m used (by simp [hc]),
        loginLoop_step g m used (by rw [← h0]; simp [hc])]
      refine ih (used + 1) f g (fun k hk => ?_)
      have hx := h (k + 1) (by omega)
      have hrw : used + (k + 1) = used + 1 + k := by omega
      rwa [hrw] at hx

/-- C4: with a handler present, `RouterManager.login_to_router` makes at
most three attempts: when every attempt fails or raises it makes exactly
three and returns the failed outcome; when attempt 1 fails and attempt 2
succeeds it returns success after two attempts; and the result depends only
on the outcomes of the (at most three) individual attempts — no other
retry state. -/
theorem c4_login_retry_bound (rm : RouterManager) (f : Nat → AttemptOutcome)
    (h : rm.handler.isSome = true) :
    ((∀ k, k < 3 → f k ≠ AttemptOutcome.success) → managerLogin rm f = (false, 3))
  ∧ (f 0 ≠ AttemptOutcome.success → f 1 = AttemptOutcome.success →
      managerLogin rm f = (true, 2))
  ∧ (∀ g : Nat → AttemptOutcome, (∀ k, k < 3 → f k = g k) →
      managerLogin rm f = managerLogin rm g) := by
  rcases hh : rm.handler with _ | hv
  · rw [hh] at h; simp at h
  · refine ⟨?_, ?_, ?_⟩
    · intro hf
      have h0 := hf 0 (by omega)
      have h1 := hf 1 (by omega)
      have h2 := hf 2 (by omega)
      simp only [managerLogin, hh]
      show loginLoop f (2 + 1) 0 = (false, 3)
      rw [loginLoop_step f 2 0 h0]
      show loginLoop f (1 + 1) 1 = (false, 3)
      rw [loginLoop_step f 1 1 h1]
      show loginLoop f (0 + 1) 2 = (false, 3)
      rw [loginLoop_step f 0 2 h2]
      rfl
    · intro h0 h1
      simp only [managerLogin, hh]
      show loginLoop f (2 + 1) 0 = (true, 2)
      rw [loginLoop_step f 2 0 h0]
      show loginLoop f (1 + 1) 1 = (true, 2)
      rw [loginLoop_stepS f 1 1 h1]
    · intro g hg
      simp only [managerLogin, hh]
      exact loginLoop_congr 3 0 f g (fun k hk => by simpa using hg k hk)

/-- C4 witness: with the ASUS handler present and every attempt failing,
login makes exactly three attempts and fails. -/
theorem c4_witness :
    managerLogin (mkRouterManager (some "ASUS")) (fun _ => AttemptOutcome.failure)
      = (false, 3) :=
  (c4_login_retry_bound (mkRouterManager (some "ASUS"))
    (fun _ => AttemptOutcome.failure) (by decide)).1 (fun k _ => by simp)

/-- C7 counterexample: with two qualifying hosts, the outcome of discovery
is determined by the terminal input stream — entering `1` or `2` returns
different hosts, and an exhausted input stream leaves the session blocked
reading from the terminal.  No input-independent ambiguous outcome carrying
the candidate sequence is returned. -/
theorem c7_counterexample_blocks_on_input :
    findDreampi
      [⟨"192.168.1.21", "00:11:22:33:44:55", "alpha", [65432]⟩,
       ⟨"192.168.1.22", "66:77:88:99:AA:BB", "beta", [20001]⟩]
      ["1"] none "192.168.1.10" = FindOutcome.found "192.168.1.21"
  ∧ findDreampi
      [⟨"192.168.1.21", "00:11:22:33:44:55", "alpha", [65432]⟩,
       ⟨"192.168.1.22", "66:77:88:99:AA:BB", "beta", [20001]⟩]
      ["2"] none "192.168.1.10" = FindOutcome.found "192.168.1.22"
  ∧ ("192.168.1.21" : String) ≠ "192.168.1.22"
  ∧ findDreampi
      [⟨"192.168.1.21", "00:11:22:33:44:55", "alpha", [65432]⟩,
       ⟨"192.168.1.22", "66:77:88:99:AA:BB", "beta", [20001]⟩]
      [] none "192.168.1.10" = FindOutcome.blockedOnInput :=
  ⟨by decide, by decide, by decide, by decide⟩

/-- C7 amended: when two or more hosts qualify, `find_dreampi` itself runs
the interactive selection loop over the candidates in discovery order: with
no terminal input it stays blocked, `q` yields no result, and a number `k`
within range selects the `k`-th candidate (1-based). -/
theorem c7_amended_interactive_selection (replies : List ArpReply)
    (manual : Option String) (localIp c : String) (k : Nat)
    (h2 : 2 ≤ (discoveredIps replies).length) :
    findDreampi replies [] manual localIp = FindOutcome.blockedOnInput
  ∧ (lowerStr (strTrim c) = "q" →
      findDreampi replies [c] manual localIp = FindOutcome.noneFound)
  ∧ (parseNatStr (strTrim c) = some k → lowerStr (strTrim c) ≠ "q" →
      1 ≤ k → k ≤ (discoveredIps replies).length →
      findDreampi replies [c] manual localIp =
        FindOutcome.found ((discoveredIps replies).getD (k - 1) "")) := by
  rcases hE : discoveredIps replies with _ | ⟨a, _ | ⟨b, rest⟩⟩
  · rw [hE] at h2; simp at h2
  · rw [hE] at h2; simp at h2
  · refine ⟨?_, ?_, ?_⟩
    · simp [findDreampi, hE, selectDevice]
    · intro hq
      simp [findDreampi, hE, selectDevice, hq]
    · intro hp hq h1 hk
      have hb1 : (1 ≤ k && k ≤ (a :: b :: rest).length) = true := by
        simp only [Bool.and_eq_true, decide_eq_true_eq]
        exact ⟨h1, hk⟩
      simp [findDreampi, hE, selectDevice, hq, hp, hb1]
      exact ⟨h1, by simpa using hk⟩

/-- C7 witness for the amended claim: two hosts with Raspberry-Pi MAC
prefixes qualify; the terminal entry `2` selects the second candidate in
discovery order. -/
theorem c7_witness :
    findDreampi
      [⟨"10.0.0.5", "B8:27:EB:00:00:01", "hosta", []⟩,
       ⟨"10.0.0.6", "DC:A6:32:00:00:02", "hostb", []⟩]
      ["2"] none "10.0.0.9" = FindOutcome.found "10.0.0.6" :=
  (c7_amended_interactive_selection
    [⟨"10.0.0.5", "B8:27:EB:00:00:01", "hosta", []⟩,
     ⟨"10.0.0.6", "DC:A6:32:00:00:02", "hostb", []⟩]
    none "10.0.0.9" "2" 2 (by decide)).2.2 (by decide) (by decide)
    (by decide) (by decide)

theorem c9_loop (ifaces : List Iface) :
    ∀ (cur : Option String) (sub : String),
      (∀ i ∈ ifaces, sideCondB i = true) →
      subnetLoop sub cur (renderIfaces ifaces) = specFind sub ifaces := by
  induction ifaces with
  | nil => intro cur sub _; rfl
  | cons i rest ih =>
    intro cur sub hall
    have hi := hall i (by simp)
    have hrest : ∀ j ∈ rest, sideCondB j = true := fun j hj => hall j (by simp [hj])
    rw [sideCondB] at hi
    simp only [Bool.and_eq_true, beq_iff_eq, Bool.not_eq_true', and_assoc] at hi
    obtain ⟨h1, h2, h3, h4, h5, h6, h7⟩ := hi
    show subnetLoop sub cur ((i.name ++ ":") :: ipv4Line i :: renderIfaces rest)
      = specFind sub (i :: rest)
    cases hd : denylistedName i with
    | true =>
      simp only [subnetLoop, h1, hd, if_true]
      simp only [subnetLoop, h4, h5, Bool.false_eq_true, if_false, curTruthy,
        Bool.false_and]
      rw [ih none sub hrest]
      simp [specFind, List.filter_cons, hd]
    | false =>
      simp only [subnetLoop, h1, hd, Bool.false_eq_true, if_false, h2, if_true]
      simp only [subnetLoop, h4, h5, Bool.false_eq_true, if_false, curTruthy, h3,
        Bool.not_false, Bool.true_and, h6, if_true, h7]
      cases hm : (firstThree i.ip == sub) with
      | true =>
        simp only [hm, if_true]
        simp [specFind, List.filter_cons, hd, List.find?_cons_of_pos, hm]
      | false =>
        simp only [hm, Bool.false_eq_true, if_false]
        rw [ih _ sub hrest]
        simp only [specFind, List.filter_cons, hd, Bool.not_false, if_true]
        rw [List.find?_cons_of_neg]
        simp [hm]

/-- C9: on a well-formed rendered interface listing, the subnet-mapping
loop of `get_router_subnet_ip` computes exactly the specification's
SubnetMapper: every interface whose name matches the virtual-adapter
denylist is skipped, the first remaining interface address whose first
three octets equal the gateway's is returned, and the result is `none`
(no matching subnet) when no interface matches. -/
theorem c9_subnet_mapper_refines (gw : String) (ifaces : List Iface)
    (h : ∀ i ∈ ifaces, sideCondB i = true) :
    getRouterSubnetIp gw (renderIfaces ifaces) = subnetMapperSpec gw ifaces :=
  c9_loop ifaces none (firstThree gw) h

/-- C9 witness: gateway `192.168.1.1` with a tunnel adapter at `10.0.0.5`
and `eth0` at `192.168.1.42` — the mapper returns `192.168.1.42` and the
tunnel adapter is excluded by its name. -/
theorem c9_witness :
    getRouterSubnetIp "192.168.1.1"
      (renderIfaces [⟨"Tunnel adapter Local Area Connection", "10.0.0.5"⟩,
                     ⟨"Ethernet adapter eth0", "192.168.1.42"⟩])
      = some "192.168.1.42" :=
  (c9_subnet_mapper_refines "192.168.1.1"
    [⟨"Tunnel adapter Local Area Connection", "10.0.0.5"⟩,
     ⟨"Ethernet adapter eth0", "192.168.1.42"⟩] (by decide)).trans (by decide)
